import Mathlib

/-!
Shallow embedding of `flytekit/clients/auth/authenticator.py`: the
credential-acquisition subsystem (Authenticator base class and its four flow
subclasses: PKCE, command, client-credentials, device-code), together with the
collaborators the flows touch (the keyring-backed Secure Credential Store and
the IdP token endpoint, modelled as explicit state and oracle inputs).

Python exceptions are modelled with `Except`; a method that can both mutate
`self` and raise is modelled as returning `Except PyError Unit × State`, the
second component being the object state after whatever assignments executed
before the raise.  Network responses and the outcomes of external collaborator
calls are passed in as explicit arguments, since the Python code receives them
from the outside world.
-/

namespace FlytekitAuth

/-- Model of `Credentials` from `flytekit/clients/auth/keyring.py` (not in the source
slice).  Modelled from the spec: "Credential — value object holding an access
token"; it holds exactly one opaque access-token string. -/
structure Credentials where
  access_token : String
deriving Repr, DecidableEq

/-- Python exceptions raised by this subsystem: `AuthenticationError` (from
`exceptions.py`) and the built-in `ValueError` raised by
`ClientCredentialsAuthenticator.__init__`. -/
inductive PyError where
  | authenticationError (msg : String)
  | valueError (msg : String)
deriving Repr, DecidableEq

/-- The `ClientConfig` dataclass: IdP metadata needed by the flows.  `scopes`
defaults to `None` and `header_key` to `"authorization"` as in the source. -/
structure ClientConfig where
  token_endpoint : String
  authorization_endpoint : String
  redirect_uri : String
  client_id : String
  device_authorization_endpoint : Option String := none
  scopes : Option (List String) := none
  header_key : String := "authorization"
deriving Repr, DecidableEq

/-- Modelled from the spec: the Secure Credential Store (`keyring.py`, not in
the source slice) is process-independent key-value persistence keyed by
service endpoint: `retrieve(endpoint) -> Credential | absent`,
`store(Credential)`, `delete(endpoint)`. -/
def KeyringState : Type := String → Option Credentials

/-- Modelled from the spec: `KeyringStore.retrieve(endpoint)` looks up the
persisted credential for `endpoint`, absent meaning never stored. -/
def KeyringStore.retrieve (kr : KeyringState) (endpoint : String) : Option Credentials :=
  kr endpoint

/-- Modelled from the spec: `KeyringStore.store(credentials)` persists the
credential under the endpoint the owning authenticator serves (the store is
keyed by service endpoint). -/
def KeyringStore.storeAt (kr : KeyringState) (endpoint : String) (c : Credentials) : KeyringState :=
  fun k => if k = endpoint then some c else kr k

/-- Modelled from the spec: `KeyringStore.delete(endpoint)` removes the
persisted credential for `endpoint`. -/
def KeyringStore.delete (kr : KeyringState) (endpoint : String) : KeyringState :=
  fun k => if k = endpoint then none else kr k

/-- Python truthiness of an optional string: `None` and `""` are falsy. -/
def strTruthy : Option String → Bool
  | none => false
  | some s => s ≠ ""

/-- Base `Authenticator` state: `__init__(endpoint, header_key, credentials)`
stores the endpoint, the credentials, and
`header_key if header_key else "authorization"`. -/
structure AuthenticatorState where
  endpoint : Option String
  header_key : String
  creds : Option Credentials
deriving Repr, DecidableEq

/-- Constructor `Authenticator.__init__`: `self._header_key = header_key if header_key
else "authorization"` (Python truthiness, so `None` and `""` both fall back). -/
def Authenticator.init (endpoint : Option String) (header_key : Option String)
    (credentials : Option Credentials) : AuthenticatorState :=
  { endpoint := endpoint
    header_key := if strTruthy header_key then header_key.getD "authorization" else "authorization"
    creds := credentials }

/-- Accessor `Authenticator.get_credentials`: returns `self._creds`. -/
def Authenticator.get_credentials (s : AuthenticatorState) : Option Credentials :=
  s.creds

/-- Method `Authenticator.fetch_grpc_call_auth_metadata`: if `self._creds` (a
`Credentials` object is always truthy; only `None` is falsy) returns
`(self._header_key, "Bearer " + access_token)`, else `None`.  The method only
reads `self`, which the embedding reflects by it being a pure function of the
state. -/
def Authenticator.fetch_grpc_call_auth_metadata (s : AuthenticatorState) :
    Option (String × String) :=
  match s.creds with
  | some c => some (s.header_key, "Bearer " ++ c.access_token)
  | none => none

/-! ## CommandAuthenticator -/

/-- State of `CommandAuthenticator`: the base state plus `self._cmd`. -/
structure CommandAuthState where
  base : AuthenticatorState
  cmd : List String
deriving Repr, DecidableEq

/-- Result of `subprocess.run(cmd, capture_output=True, text=True)`: exit
status and captured output streams. -/
structure CommandResult where
  returncode : Int
  stdout : String
  stderr : String
deriving Repr, DecidableEq

/-- ASCII whitespace, as `str.strip()` removes by default. -/
def isPyWhitespace (c : Char) : Bool :=
  c = ' ' || c = '\t' || c = '\n' || c = '\r' || c = '\x0b' || c = '\x0c'

/-- The Python `str.strip()` operation: removes leading and trailing whitespace. -/
def pyStrip (s : String) : String :=
  String.mk (((s.data.dropWhile isPyWhitespace).reverse.dropWhile isPyWhitespace).reverse)

/-- Message text `str(subprocess.CalledProcessError(rc, cmd))`: the message carried when
`check=True` sees a non-zero exit status. -/
def calledProcessErrorMessage (cmd : List String) (returncode : Int) : String :=
  "Command " ++ toString cmd ++ " returned non-zero exit status " ++ toString returncode ++ "."

/-- Constructor `CommandAuthenticator.__init__(command, header_key)`: raises
`AuthenticationError` when `not self._cmd` (absent command or empty argument
vector), otherwise calls the base constructor with `endpoint=None`. -/
def CommandAuthenticator.init (command : Option (List String)) (header_key : Option String) :
    Except PyError CommandAuthState :=
  match command with
  | none => .error (.authenticationError "Command cannot be empty for command authenticator")
  | some cmd =>
    if cmd = [] then
      .error (.authenticationError "Command cannot be empty for command authenticator")
    else
      .ok { base := Authenticator.init none header_key none, cmd := cmd }

/-- Method `CommandAuthenticator.refresh_credentials`: runs the command
(`check=True`); a non-zero exit raises `AuthenticationError` wrapping the
`CalledProcessError` text, leaving `self._creds` untouched; on exit status 0
the stripped stdout becomes the new credential.  The observed command
outcome is the explicit `output` argument.  The method never touches the
keyring store, so the embedding takes no store state. -/
def CommandAuthenticator.refresh_credentials (s : CommandAuthState) (output : CommandResult) :
    Except PyError Unit × CommandAuthState :=
  if output.returncode ≠ 0 then
    (.error (.authenticationError
      ("Problems refreshing token with command: " ++ calledProcessErrorMessage s.cmd output.returncode)), s)
  else
    (.ok (), { s with base := { s.base with creds := some ⟨pyStrip output.stdout⟩ } })

/-! ## ClientCredentialsAuthenticator -/

/-- The 64-character base64 alphabet as a list of characters. -/
def b64Alphabet : List Char :=
  "ABCDEFGHIJKLMNOPQRSTUVWXYZabcdefghijklmnopqrstuvwxyz0123456789+/".toList

/-- The base64 digit for a 6-bit value. -/
def b64Char (n : Nat) : Char :=
  b64Alphabet.getD n 'A'

/-- Standard base64 encoding of a byte sequence (RFC 4648, with padding), as
performed by the Python function `base64.b64encode`. -/
def base64EncodeBytes : List Nat → String
  | [] => ""
  | [a] =>
    String.mk [b64Char (a / 4), b64Char (a % 4 * 16)] ++ "=="
  | [a, b] =>
    String.mk [b64Char (a / 4), b64Char (a % 4 * 16 + b / 16), b64Char (b % 16 * 4)] ++ "="
  | a :: b :: c :: rest =>
    String.mk [b64Char (a / 4), b64Char (a % 4 * 16 + b / 16),
      b64Char (b % 16 * 4 + c / 64), b64Char (c % 64)] ++ base64EncodeBytes rest

/-- UTF-8 encoding of one character, as a list of byte values. -/
def utf8EncodeChar (c : Char) : List Nat :=
  let n := c.toNat
  if n < 128 then [n]
  else if n < 2048 then [192 + n / 64, 128 + n % 64]
  else if n < 65536 then [224 + n / 4096, 128 + n / 64 % 64, 128 + n % 64]
  else [240 + n / 262144, 128 + n / 4096 % 64, 128 + n / 64 % 64, 128 + n % 64]

/-- UTF-8 encoding of a string, as `str.encode("utf-8")` produces. -/
def utf8Encode (s : String) : List Nat :=
  s.data.foldr (fun c acc => utf8EncodeChar c ++ acc) []

/-- Static method `ClientCredentialsAuthenticator.get_basic_authorization_header`: joins id
and secret with `":"`, base64-encodes the UTF-8 bytes, and prepends
`"Basic "`. -/
def ClientCredentialsAuthenticator.get_basic_authorization_header
    (client_id : String) (client_secret : String) : String :=
  let concated := client_id ++ ":" ++ client_secret
  "Basic " ++ base64EncodeBytes (utf8Encode concated)

/-- An HTTP response from the token endpoint as the code observes it:
`status_code`, raw `text` body, and the JSON fields the 200 branch reads. -/
structure HttpResponse where
  status_code : Nat
  text : String
  json_access_token : String
  json_expires_in : Nat
deriving Repr, DecidableEq

/-- The form body `ClientCredentialsAuthenticator.get_token` POSTs:
`grant_type=client_credentials`, plus `scope` as a comma-joined list when
`scopes is not None`. -/
def get_token_body (scopes : Option (List String)) : List (String × String) :=
  match scopes with
  | none => [("grant_type", "client_credentials")]
  | some l => [("grant_type", "client_credentials"), ("scope", String.intercalate "," l)]

/-- Static method `ClientCredentialsAuthenticator.get_token` after the POST returns
`response`: a status other than 200 logs the status and body via
`logging.error` and raises `AuthenticationError("Non-200 received from IDP")`;
a 200 returns `(access_token, expires_in)` from the JSON body.  The second
component is the log output the call emits. -/
def ClientCredentialsAuthenticator.get_token (response : HttpResponse) :
    Except PyError (String × Nat) × List String :=
  if response.status_code ≠ 200 then
    (.error (.authenticationError "Non-200 received from IDP"),
      ["Non-200 (" ++ toString response.status_code ++ ") received from IDP: " ++ response.text])
  else
    (.ok (response.json_access_token, response.json_expires_in), [])

/-- State of `ClientCredentialsAuthenticator`: base state plus the fields
`__init__` copies out of the resolved `ClientConfig` and its own id/secret. -/
structure CCAuthState where
  base : AuthenticatorState
  token_endpoint : String
  scopes : Option (List String)
  client_id : String
  client_secret : String
deriving Repr, DecidableEq

/-- Constructor `ClientCredentialsAuthenticator.__init__`: raises `ValueError` when either
the client id or the client secret is falsy (absent or empty); otherwise
resolves the `ClientConfig` from the store and calls the base constructor with
`cfg.header_key or header_key`. -/
def ClientCredentialsAuthenticator.init (endpoint : String) (client_id : Option String)
    (client_secret : Option String) (cfg : ClientConfig) (header_key : Option String) :
    Except PyError CCAuthState :=
  if ¬ (strTruthy client_id ∧ strTruthy client_secret) then
    .error (.valueError "Client ID and Client SECRET both are required.")
  else
    .ok { base := Authenticator.init (some endpoint)
            (if cfg.header_key ≠ "" then some cfg.header_key else header_key) none
          token_endpoint := cfg.token_endpoint
          scopes := cfg.scopes
          client_id := client_id.getD ""
          client_secret := client_secret.getD "" }

/-- The request `ClientCredentialsAuthenticator.refresh_credentials` sends:
the token endpoint URL, the Basic authorization header built from the stored
id and secret, and the form body. -/
structure TokenRequest where
  url : String
  authorization : String
  body : List (String × String)
deriving Repr, DecidableEq

/-- The outbound token request `refresh_credentials` builds from the state. -/
def ClientCredentialsAuthenticator.tokenRequest (s : CCAuthState) : TokenRequest :=
  { url := s.token_endpoint
    authorization := ClientCredentialsAuthenticator.get_basic_authorization_header
      s.client_id s.client_secret
    body := get_token_body s.scopes }

/-- Method `ClientCredentialsAuthenticator.refresh_credentials`: builds the Basic
header, calls `get_token`; if `get_token` raises, the error propagates and
`self._creds` is untouched; on success `self._creds = Credentials(token)`.
The IdP is the oracle `idp`, mapping the outbound request to the HTTP
response observed.  The flow never touches the keyring store, which the
embedding records by passing the store state through unchanged. -/
def ClientCredentialsAuthenticator.refresh_credentials (s : CCAuthState) (kr : KeyringState)
    (idp : TokenRequest → HttpResponse) :
    Except PyError Unit × CCAuthState × KeyringState :=
  match (ClientCredentialsAuthenticator.get_token
      (idp (ClientCredentialsAuthenticator.tokenRequest s))).1 with
  | .error e => (.error e, s, kr)
  | .ok (token, _expires_in) =>
    (.ok (), { s with base := { s.base with creds := some ⟨token⟩ } }, kr)

/-! ## PKCEAuthenticator -/

/-- State of `PKCEAuthenticator`: base state plus the config store contents, and
whether `self._auth_client` has been initialized (it is `None` until the first
`refresh_credentials`). -/
structure PKCEAuthState where
  base : AuthenticatorState
  cfg : ClientConfig
  auth_client_initialized : Bool
deriving Repr, DecidableEq

/-- Constructor `PKCEAuthenticator.__init__(endpoint, cfg_store, header_key, verify)`:
hydrates credentials best-effort from `KeyringStore.retrieve(endpoint)` and
leaves `self._auth_client = None`.  The config store is static, so its
eventual `get_client_config()` answer is carried in the state. -/
def PKCEAuthenticator.init (endpoint : String) (cfg : ClientConfig)
    (header_key : Option String) (kr : KeyringState) : PKCEAuthState :=
  { base := Authenticator.init (some endpoint) header_key (KeyringStore.retrieve kr endpoint)
    cfg := cfg
    auth_client_initialized := false }

/-- Method `PKCEAuthenticator._init_auth_client`: on first use, resolves the
client config, overwrites `self._header_key` with `cfg.header_key`, and
constructs the `AuthorizationClient`; later calls are no-ops. -/
def PKCEAuthenticator.init_auth_client (s : PKCEAuthState) : PKCEAuthState :=
  if s.auth_client_initialized then s
  else
    { s with
      base := { s.base with header_key := s.cfg.header_key }
      auth_client_initialized := true }

/-- Modelled from the spec: the outcome of
`AuthorizationClient.refresh_access_token(creds)` (`auth_client.py` is not in
the source slice).  Per the interactive flow of the spec it either succeeds with a
refreshed credential (the code also guards for a falsy result, hence the
`Option`), fails with the distinguished recoverable
`AccessTokenNotFoundError`, or fails with some other propagating error. -/
inductive RefreshOutcome where
  | ok (c : Option Credentials)
  | accessTokenNotFound
  | otherError (e : PyError)
deriving Repr, DecidableEq

/-- Method `PKCEAuthenticator.refresh_credentials`: initializes the auth client; when
credentials are cached, tries `refresh_access_token` — on success assigns and
(when the result is truthy) persists and returns; on
`AccessTokenNotFoundError` deletes the keyring entry for this endpoint and
falls through; on any other error the error propagates.  The fall-through (or
the no-cached-credentials path) runs `get_creds_from_remote`, assigns the
result and persists it.  Outcomes of the two `AuthorizationClient` calls are
the explicit oracle arguments `refreshResult` and `remoteResult`; the keyring
is threaded as state.  `KeyringStore.store` writes under the endpoint of this
authenticator (`self._endpoint` is `some ep`, passed as `ep`). -/
def PKCEAuthenticator.refresh_credentials (s0 : PKCEAuthState) (ep : String) (kr : KeyringState)
    (refreshResult : RefreshOutcome) (remoteResult : Except PyError Credentials) :
    Except PyError Unit × PKCEAuthState × KeyringState :=
  let s := PKCEAuthenticator.init_auth_client s0
  match s.base.creds with
  | some _ =>
    match refreshResult with
    | .ok c =>
      let s1 := { s with base := { s.base with creds := c } }
      match c with
      | some cr => (.ok (), s1, KeyringStore.storeAt kr ep cr)
      | none => (.ok (), s1, kr)
    | .accessTokenNotFound =>
      let kr1 := KeyringStore.delete kr ep
      match remoteResult with
      | .error e => (.error e, s, kr1)
      | .ok cr =>
        (.ok (), { s with base := { s.base with creds := some cr } },
          KeyringStore.storeAt kr1 ep cr)
    | .otherError e => (.error e, s, kr)
  | none =>
    match remoteResult with
    | .error e => (.error e, s, kr)
    | .ok cr =>
      (.ok (), { s with base := { s.base with creds := some cr } },
        KeyringStore.storeAt kr ep cr)

/-! ## DeviceCodeAuthenticator -/

/-- A response the IdP token endpoint could give to device-code polling
(RFC 8628 shapes named by the spec). -/
inductive DevicePollResponse where
  | token (access_token : String)
  | authorization_pending
  | slow_down
  | expired_token
  | access_denied
deriving Repr, DecidableEq

/-- Constructor `DeviceCodeAuthenticator.__init__` in the source has body `pass`: it sets
no attributes at all (it does not even call the base constructor), so the
state carries nothing. -/
structure DeviceCodeAuthState where
  mk ::
deriving Repr, DecidableEq

/-- Method `DeviceCodeAuthenticator.refresh_credentials` in the source has body
`pass` (as do `_get_code`, `_poll` and `_get_token`): it performs no device
authorization request, no polling, raises nothing, changes nothing and
returns `None`.  The argument carries the poll responses the IdP would give,
which the stub never consults; the elapsed time past the device code
`expires_in` deadline is likewise ignored. -/
def DeviceCodeAuthenticator.refresh_credentials (s : DeviceCodeAuthState)
    (_pollResponses : List DevicePollResponse) (_pastDeadline : Bool) :
    Except PyError Unit × DeviceCodeAuthState :=
  (.ok (), s)

/-! ## Helper: substring test -/

/-- Test whether `needle` occurs as a contiguous substring of `hay`. -/
def strContains (hay needle : String) : Bool :=
  (List.range (hay.length + 1)).any (fun i => needle.isPrefixOf (hay.drop i))

/-! ## Theorems -/

/-- Helper: `_init_auth_client` never changes the cached credentials. -/
theorem init_auth_client_creds (s : PKCEAuthState) :
    (PKCEAuthenticator.init_auth_client s).base.creds = s.base.creds := by
  unfold PKCEAuthenticator.init_auth_client
  by_cases h : s.auth_client_initialized <;> simp [h]

/-- C2: `fetch_grpc_call_auth_metadata` returns absent exactly when no
credential is cached, and otherwise the pair of the header key and
`"Bearer "` followed by the cached access token.  The source method only
reads `self`, which the embedding reflects by modelling it as a pure function
of the state: it can neither perform I/O nor change the state. -/
theorem fetch_auth_metadata_spec (s : AuthenticatorState) :
    (Authenticator.fetch_grpc_call_auth_metadata s = none ↔
      Authenticator.get_credentials s = none)
    ∧ (∀ c : Credentials, Authenticator.get_credentials s = some c →
        Authenticator.fetch_grpc_call_auth_metadata s
          = some (s.header_key, "Bearer " ++ c.access_token)) := by
  unfold Authenticator.fetch_grpc_call_auth_metadata Authenticator.get_credentials
  cases h : s.creds <;> simp

/-- C2 witness: at a state caching the token `tok`, the metadata is the
bearer pair. -/
theorem fetch_auth_metadata_spec_witness :
    Authenticator.fetch_grpc_call_auth_metadata ⟨some "dns:///flyte.example.com", "authorization", some ⟨"tok"⟩⟩
      = some ("authorization", "Bearer tok") :=
  (fetch_auth_metadata_spec ⟨some "dns:///flyte.example.com", "authorization", some ⟨"tok"⟩⟩).2 ⟨"tok"⟩ rfl

/-- C3: constructing `CommandAuthenticator` with an absent command or an
empty argument vector raises `AuthenticationError` at construction time, and
constructing it with a non-empty command never raises. -/
theorem command_init_validation (command : Option (List String)) (header_key : Option String) :
    ((command = none ∨ command = some []) →
      CommandAuthenticator.init command header_key
        = .error (.authenticationError "Command cannot be empty for command authenticator"))
    ∧ (∀ l : List String, command = some l → l ≠ [] →
        CommandAuthenticator.init command header_key
          = .ok { base := Authenticator.init none header_key none, cmd := l }) := by
  constructor
  · rintro (rfl | rfl) <;> rfl
  · rintro l rfl hl
    unfold CommandAuthenticator.init
    simp [hl]

/-- C3 witness: the empty command raises; the one-element command
`["flytectl"]` constructs successfully. -/
theorem command_init_validation_witness :
    CommandAuthenticator.init (some []) none
      = .error (.authenticationError "Command cannot be empty for command authenticator")
    ∧ CommandAuthenticator.init (some ["flytectl"]) none
      = .ok { base := Authenticator.init none none none, cmd := ["flytectl"] } :=
  ⟨(command_init_validation (some []) none).1 (Or.inr rfl),
   (command_init_validation (some ["flytectl"]) none).2 ["flytectl"] rfl (by decide)⟩

/-- C4: the Basic-Auth header equals `"Basic "` followed by the base64
encoding of `client_id ++ ":" ++ client_secret`; in particular for id `abc`
and secret `xyz` it is `Basic YWJjOnh5eg==`. -/
theorem basic_authorization_header_spec :
    (∀ client_id client_secret : String,
      ClientCredentialsAuthenticator.get_basic_authorization_header client_id client_secret
        = "Basic " ++ base64EncodeBytes (utf8Encode (client_id ++ ":" ++ client_secret)))
    ∧ ClientCredentialsAuthenticator.get_basic_authorization_header "abc" "xyz"
        = "Basic YWJjOnh5eg==" :=
  ⟨fun _ _ => rfl, by decide⟩

/-- C5 counterexample: at a 401 response with body `invalid_client: bad
secret`, `get_token` raises `AuthenticationError` whose message is the fixed
string `Non-200 received from IDP` — the response body is not contained in
the raised error message (it goes to the log instead). -/
theorem get_token_error_lacks_body :
    (ClientCredentialsAuthenticator.get_token ⟨401, "invalid_client: bad secret", "", 0⟩).1
      = .error (.authenticationError "Non-200 received from IDP")
    ∧ strContains "Non-200 received from IDP" "invalid_client: bad secret" = false :=
  ⟨rfl, by decide⟩

/-- C5 amended: whenever the token endpoint responds with a status other than
200, `get_token` raises `AuthenticationError` with the fixed message
`Non-200 received from IDP`, and the response body is carried in the
`logging.error` output, not in the raised error. -/
theorem get_token_non200_spec (response : HttpResponse)
    (h : response.status_code ≠ 200) :
    ClientCredentialsAuthenticator.get_token response
      = (.error (.authenticationError "Non-200 received from IDP"),
         ["Non-200 (" ++ toString response.status_code ++ ") received from IDP: "
           ++ response.text]) := by
  unfold ClientCredentialsAuthenticator.get_token
  simp [h]

/-- C5 amended witness: the 401 response with body `denied` raises the fixed
message and logs the body. -/
theorem get_token_non200_spec_witness :
    ClientCredentialsAuthenticator.get_token ⟨401, "denied", "", 0⟩
      = (.error (.authenticationError "Non-200 received from IDP"),
         ["Non-200 (401) received from IDP: denied"]) :=
  get_token_non200_spec ⟨401, "denied", "", 0⟩ (by decide)

/-- C6: when the IdP answers the client-credentials token request with any
status other than 200, `refresh_credentials` raises `AuthenticationError`
and returns the authenticator state exactly as it was — in particular the
cached credential is unchanged (and the keyring is untouched). -/
theorem client_credentials_non200_preserves_creds (s : CCAuthState) (kr : KeyringState)
    (idp : TokenRequest → HttpResponse)
    (h : (idp (ClientCredentialsAuthenticator.tokenRequest s)).status_code ≠ 200) :
    ClientCredentialsAuthenticator.refresh_credentials s kr idp
      = (.error (.authenticationError "Non-200 received from IDP"), s, kr) := by
  unfold ClientCredentialsAuthenticator.refresh_credentials
    ClientCredentialsAuthenticator.get_token
  simp [h]

/-- C6 witness: an IdP that always answers 403 makes `refresh_credentials`
raise and leaves the previously cached credential `old` in place. -/
theorem client_credentials_non200_preserves_creds_witness :
    ClientCredentialsAuthenticator.refresh_credentials
        ⟨⟨some "dns:///flyte.example.com", "authorization", some ⟨"old"⟩⟩,
          "https://idp.example.com/token", none, "cid", "secret"⟩
        (fun _ => none) (fun _ => ⟨403, "forbidden", "", 0⟩)
      = (.error (.authenticationError "Non-200 received from IDP"),
         ⟨⟨some "dns:///flyte.example.com", "authorization", some ⟨"old"⟩⟩,
           "https://idp.example.com/token", none, "cid", "secret"⟩,
         fun _ => none) :=
  client_credentials_non200_preserves_creds _ _ _ (by decide)

/-- C10: when the configured command exits with a non-zero status,
`refresh_credentials` raises `AuthenticationError` wrapping the
`CalledProcessError` text and returns the state exactly as it was — the
credential is assigned only after the command succeeds. -/
theorem command_refresh_failure_preserves_creds (s : CommandAuthState)
    (output : CommandResult) (h : output.returncode ≠ 0) :
    CommandAuthenticator.refresh_credentials s output
      = (.error (.authenticationError ("Problems refreshing token with command: "
          ++ calledProcessErrorMessage s.cmd output.returncode)), s) := by
  unfold CommandAuthenticator.refresh_credentials
  simp [h]

/-- C10 witness: exit status 1 raises and preserves the cached credential
`old`. -/
theorem command_refresh_failure_preserves_creds_witness :
    CommandAuthenticator.refresh_credentials
        ⟨⟨none, "authorization", some ⟨"old"⟩⟩, ["flytectl", "token"]⟩ ⟨1, "", "boom"⟩
      = (.error (.authenticationError ("Problems refreshing token with command: "
          ++ calledProcessErrorMessage ["flytectl", "token"] 1)),
         ⟨⟨none, "authorization", some ⟨"old"⟩⟩, ["flytectl", "token"]⟩) :=
  command_refresh_failure_preserves_creds _ _ (by decide)

/-- C7: in the PKCE flow, when a credential is cached and the token-refresh
round-trip fails with `AccessTokenNotFoundError`, `refresh_credentials`
deletes the keyring entry for the endpoint, swallows that error, and runs the
full interactive grant: if the grant yields `cr`, the call succeeds with the
new credential cached and persisted under the endpoint on top of the purged
store; if the grant itself fails, only the error raised by the grant itself propagates, with
the purge still in effect. -/
theorem pkce_token_not_found_purges_and_reauths (s : PKCEAuthState) (ep : String)
    (kr : KeyringState) (c : Credentials) (h : s.base.creds = some c) :
    (∀ cr : Credentials,
      PKCEAuthenticator.refresh_credentials s ep kr .accessTokenNotFound (.ok cr)
        = (.ok (),
           { PKCEAuthenticator.init_auth_client s with
              base := { (PKCEAuthenticator.init_auth_client s).base with
                          creds := some cr } },
           KeyringStore.storeAt (KeyringStore.delete kr ep) ep cr))
    ∧ (∀ e : PyError,
      PKCEAuthenticator.refresh_credentials s ep kr .accessTokenNotFound (.error e)
        = (.error e, PKCEAuthenticator.init_auth_client s,
           KeyringStore.delete kr ep)) := by
  have hc : (PKCEAuthenticator.init_auth_client s).base.creds = some c :=
    (init_auth_client_creds s).trans h
  constructor
  · intro cr
    unfold PKCEAuthenticator.refresh_credentials
    simp [hc]
  · intro e
    unfold PKCEAuthenticator.refresh_credentials
    simp [hc]

/-- C7 witness: with `old` cached and the refresh round-trip reporting
`AccessTokenNotFoundError`, the credential `new` from the full grant ends up cached
and retrievable from the store under the endpoint. -/
theorem pkce_token_not_found_witness :
    PKCEAuthenticator.refresh_credentials
        ⟨⟨some "dns:///flyte.example.com", "authorization", some ⟨"old"⟩⟩,
          ⟨"https://idp.example.com/token", "https://idp.example.com/auth",
            "http://localhost:53593/callback", "cid", none, none, "authorization"⟩, true⟩
        "dns:///flyte.example.com" (fun _ => none) .accessTokenNotFound (.ok ⟨"new"⟩)
      = (.ok (),
         ⟨⟨some "dns:///flyte.example.com", "authorization", some ⟨"new"⟩⟩,
           ⟨"https://idp.example.com/token", "https://idp.example.com/auth",
             "http://localhost:53593/callback", "cid", none, none, "authorization"⟩, true⟩,
         KeyringStore.storeAt (KeyringStore.delete (fun _ => none) "dns:///flyte.example.com")
           "dns:///flyte.example.com" ⟨"new"⟩) :=
  (pkce_token_not_found_purges_and_reauths _ "dns:///flyte.example.com" _ ⟨"old"⟩ rfl).1 ⟨"new"⟩

/-- C8: the device-code flow in the source is an unimplemented stub —
`refresh_credentials` has body `pass`, so it performs no polling and returns
without raising for every sequence of IdP poll responses; in particular it
raises neither a denial error when the IdP would answer `access_denied` nor
an expiry error past the `expires_in` deadline, contradicting the documented
device-code contract. -/
theorem device_code_refresh_is_stub :
    (∀ (poll : List DevicePollResponse) (pastDeadline : Bool),
      DeviceCodeAuthenticator.refresh_credentials ⟨⟩ poll pastDeadline = (.ok (), ⟨⟩))
    ∧ DeviceCodeAuthenticator.refresh_credentials ⟨⟩ [DevicePollResponse.access_denied] true
        = (.ok (), ⟨⟩) :=
  ⟨fun _ _ => rfl, rfl⟩

/-- C1 counterexample: a successful client-credentials
`refresh_credentials` against an empty store returns without raising and
caches the token, yet nothing was written to the Secure Credential Store —
the entry under the endpoint of the authenticator is still absent, so the cached
credential is not "equal to the Credential that was written to the store
under the endpoint key during that call" (no such write happened; the source
of this flow never touches the keyring). -/
theorem refresh_success_not_persisted_cex :
    (ClientCredentialsAuthenticator.refresh_credentials
        ⟨⟨some "dns:///flyte.example.com", "authorization", none⟩,
          "https://idp.example.com/token", none, "cid", "secret"⟩
        (fun _ => none) (fun _ => ⟨200, "", "tok", 3600⟩)).1 = .ok ()
    ∧ Authenticator.get_credentials
        (ClientCredentialsAuthenticator.refresh_credentials
          ⟨⟨some "dns:///flyte.example.com", "authorization", none⟩,
            "https://idp.example.com/token", none, "cid", "secret"⟩
          (fun _ => none) (fun _ => ⟨200, "", "tok", 3600⟩)).2.1.base = some ⟨"tok"⟩
    ∧ KeyringStore.retrieve
        (ClientCredentialsAuthenticator.refresh_credentials
          ⟨⟨some "dns:///flyte.example.com", "authorization", none⟩,
            "https://idp.example.com/token", none, "cid", "secret"⟩
          (fun _ => none) (fun _ => ⟨200, "", "tok", 3600⟩)).2.2 "dns:///flyte.example.com"
        = none :=
  ⟨rfl, rfl, rfl⟩

/-- C1 amended: (i) in the PKCE flow, whenever `refresh_credentials` returns
without raising and ends with a credential cached, that credential is exactly
what the call persisted to the store under the endpoint key; (ii) the
client-credentials flow never touches the store, and a successful refresh
caches the token the IdP returned; (iii) the command flow (which has no store
interaction in its source at all) on success caches the stripped command
output.  The device-code flow is an unimplemented stub whose refresh changes
nothing. -/
theorem refresh_success_cache_store_amended :
    (∀ (s : PKCEAuthState) (ep : String) (kr : KeyringState)
        (rr : RefreshOutcome) (rem : Except PyError Credentials) (cr : Credentials),
      (PKCEAuthenticator.refresh_credentials s ep kr rr rem).1 = .ok () →
      (PKCEAuthenticator.refresh_credentials s ep kr rr rem).2.1.base.creds = some cr →
      KeyringStore.retrieve (PKCEAuthenticator.refresh_credentials s ep kr rr rem).2.2 ep
        = some cr)
    ∧ (∀ (s : CCAuthState) (kr : KeyringState) (idp : TokenRequest → HttpResponse),
      (ClientCredentialsAuthenticator.refresh_credentials s kr idp).2.2 = kr
      ∧ ((ClientCredentialsAuthenticator.refresh_credentials s kr idp).1 = .ok () →
        (ClientCredentialsAuthenticator.refresh_credentials s kr idp).2.1.base.creds
          = some ⟨(idp (ClientCredentialsAuthenticator.tokenRequest s)).json_access_token⟩))
    ∧ (∀ (s : CommandAuthState) (output : CommandResult), output.returncode = 0 →
      CommandAuthenticator.refresh_credentials s output
        = (.ok (), { s with base := { s.base with creds := some ⟨pyStrip output.stdout⟩ } })) := by
  refine ⟨?_, ?_, ?_⟩
  · intro s ep kr rr rem cr h1 h2
    cases hc : (PKCEAuthenticator.init_auth_client s).base.creds with
    | none =>
      cases rem with
      | error e => simp [PKCEAuthenticator.refresh_credentials, hc] at h1
      | ok cr2 =>
        simp [PKCEAuthenticator.refresh_credentials, hc] at h2 ⊢
        simp [KeyringStore.retrieve, KeyringStore.storeAt, h2]
    | some c =>
      cases rr with
      | ok copt =>
        cases copt with
        | none => simp [PKCEAuthenticator.refresh_credentials, hc] at h2
        | some cr2 =>
          simp [PKCEAuthenticator.refresh_credentials, hc] at h2 ⊢
          simp [KeyringStore.retrieve, KeyringStore.storeAt, h2]
      | accessTokenNotFound =>
        cases rem with
        | error e => simp [PKCEAuthenticator.refresh_credentials, hc] at h1
        | ok cr2 =>
          simp [PKCEAuthenticator.refresh_credentials, hc] at h2 ⊢
          simp [KeyringStore.retrieve, KeyringStore.storeAt, h2]
      | otherError e => simp [PKCEAuthenticator.refresh_credentials, hc] at h1
  · intro s kr idp
    by_cases h : (idp (ClientCredentialsAuthenticator.tokenRequest s)).status_code = 200
    · constructor
      · simp [ClientCredentialsAuthenticator.refresh_credentials,
          ClientCredentialsAuthenticator.get_token, h]
      · intro _
        simp [ClientCredentialsAuthenticator.refresh_credentials,
          ClientCredentialsAuthenticator.get_token, h]
    · constructor
      · simp [ClientCredentialsAuthenticator.refresh_credentials,
          ClientCredentialsAuthenticator.get_token, h]
      · intro h1
        simp [ClientCredentialsAuthenticator.refresh_credentials,
          ClientCredentialsAuthenticator.get_token, h] at h1
  · intro s output h
    unfold CommandAuthenticator.refresh_credentials
    simp [h]

/-- C1 amended witness: concrete runs of all three implemented flows — a PKCE
refresh that rotates `old` to `new` leaves `new` retrievable under the
endpoint; a successful client-credentials refresh leaves the store untouched
and caches `tok`; a successful command run caches the stripped stdout. -/
theorem refresh_success_cache_store_amended_witness :
    KeyringStore.retrieve
        (PKCEAuthenticator.refresh_credentials
          ⟨⟨some "dns:///flyte.example.com", "authorization", some ⟨"old"⟩⟩,
            ⟨"https://idp.example.com/token", "https://idp.example.com/auth",
              "http://localhost:53593/callback", "cid", none, none, "authorization"⟩, true⟩
          "dns:///flyte.example.com" (fun _ => none) (.ok (some ⟨"new"⟩))
          (.error (.authenticationError "unused"))).2.2 "dns:///flyte.example.com"
      = some ⟨"new"⟩
    ∧ (ClientCredentialsAuthenticator.refresh_credentials
          ⟨⟨some "dns:///flyte.example.com", "authorization", none⟩,
            "https://idp.example.com/token", none, "cid", "secret"⟩
          (fun _ => none) (fun _ => ⟨200, "", "tok", 3600⟩)).2.2
      = (fun _ => none)
    ∧ CommandAuthenticator.refresh_credentials
        ⟨⟨none, "authorization", none⟩, ["flytectl", "token"]⟩ ⟨0, " tok \n", ""⟩
      = (.ok (), ⟨⟨none, "authorization", some ⟨"tok"⟩⟩, ["flytectl", "token"]⟩) := by
  refine ⟨?_, ?_, ?_⟩
  · exact refresh_success_cache_store_amended.1
      ⟨⟨some "dns:///flyte.example.com", "authorization", some ⟨"old"⟩⟩,
        ⟨"https://idp.example.com/token", "https://idp.example.com/auth",
          "http://localhost:53593/callback", "cid", none, none, "authorization"⟩, true⟩
      "dns:///flyte.example.com" (fun _ => none) (.ok (some ⟨"new"⟩))
      (.error (.authenticationError "unused")) ⟨"new"⟩ rfl rfl
  · exact (refresh_success_cache_store_amended.2.1
      ⟨⟨some "dns:///flyte.example.com", "authorization", none⟩,
        "https://idp.example.com/token", none, "cid", "secret"⟩
      (fun _ => none) (fun _ => ⟨200, "", "tok", 3600⟩)).1
  · exact refresh_success_cache_store_amended.2.2
      ⟨⟨none, "authorization", none⟩, ["flytectl", "token"]⟩ ⟨0, " tok \n", ""⟩ rfl

end FlytekitAuth
